import Mathlib

/-!
Shallow embedding of the `valueinvest` stock-screening subsystem
(`src/valueinvest/screener/`): data model (`base.py`), the composite scorer
(`scorers.py`), the filter set (`filters.py`), the strategy builders
(`strategies.py`) and the pipeline driver (`pipeline.py`).

Modelling conventions:
- Python floats are modelled as exact rationals `ℚ` (the spec-level claims are
  about real-number behaviour, not IEEE rounding).
- Python counts (`undervalued_methods`, `total_methods`) are modelled as `ℕ`.
- Python exceptions are modelled with `Except String` where the caller
  catches them; code that can only be reached with a raised exception is
  modelled by the corresponding error branch.
- Mutation of a `ScreeningResult` in place is modelled by explicit state
  passing: a function that mutates its argument returns the updated record.
- Wall-clock time (`time.time()`, `datetime.now()`) is abstracted: durations
  are passed in as parameters and timestamps are dropped from the model.
- Python string formatting (`f"{v:.1f}"`, `str(x)`) is modelled by executable
  decimal printers below.  They round half away from zero at the last digit
  where CPython rounds the underlying double half-to-even; no threshold used
  in this development sits at such a tie.  Integral thresholds print as
  `"20"` (as for a Python `int` argument); a Python `float` threshold would
  print as `"20.0"`, which contains the same comparison substrings.
-/

/-- Character-list matcher: `listStarts p l` is true when `p` is an initial
segment of `l` (used to model Python's `in` substring test). -/
def listStarts : List Char → List Char → Bool
  | [], _ => true
  | _ :: _, [] => false
  | a :: as, b :: bs => a == b && listStarts as bs

/-- Substring occurrence on character lists. -/
def listHasSub (sub : List Char) : List Char → Bool
  | [] => listStarts sub []
  | c :: rest => listStarts sub (c :: rest) || listHasSub sub rest

/-- Python's substring containment `sub in s`. -/
def strContainsSub (s sub : String) : Bool :=
  listHasSub sub.data s.data

/-- Fixed-point decimal printer modelling Python's `f"{q:.k f}"`:
`k` digits after the point, rounding half away from zero on `|q|`. -/
def fmtFixed (k : ℕ) (q : ℚ) : String :=
  let sgn := if q < 0 then "-" else ""
  let n : ℕ := (Int.floor (|q| * (10 : ℚ) ^ k + 1 / 2)).toNat
  let ip := n / 10 ^ k
  let fp := n % 10 ^ k
  let fstr := toString fp
  let pad := String.mk (List.replicate (k - fstr.length) '0')
  if k = 0 then sgn ++ toString ip else sgn ++ toString ip ++ "." ++ pad ++ fstr

/-- Models `f"{q:.1f}"`. -/
def fmt1 (q : ℚ) : String := fmtFixed 1 q

/-- Models `f"{q:.2f}"`. -/
def fmt2 (q : ℚ) : String := fmtFixed 2 q

/-- Models `f"{q:+.2f}"`. -/
def fmtSigned2 (q : ℚ) : String :=
  if 0 ≤ q then "+" ++ fmtFixed 2 q else fmtFixed 2 q

/-- Number of decimal places needed to print a rational with denominator
`den` exactly (capped at 32; every threshold in the repo is a short decimal). -/
def decPlaces (den : ℕ) : ℕ :=
  (((List.range 33).filter fun k => 10 ^ k % den == 0).headD 32)

/-- Models Python's `str(x)`/`f"{x}"` on a numeric threshold: integers print
with no decimal point, finite decimals print exactly. -/
def pyStr (q : ℚ) : String :=
  if q.den = 1 then toString q.num else fmtFixed (decPlaces q.den) q

/-- `base.py`: `FilterCategory` enum. -/
inductive FilterCategory
  | VALUATION
  | QUALITY
  | SENTIMENT
  | MOMENTUM
  | DIVIDEND
deriving DecidableEq

/-- `base.py`: `FilterResult` dataclass. -/
structure FilterResult where
  filter_name : String
  passed : Bool
  reason : String
  value : Option ℚ := none
  threshold : Option ℚ := none
  category : FilterCategory := FilterCategory.VALUATION

/-- `base.py`: `ScoringWeights` dataclass (defaults 0.40/0.30/0.20/0.10). -/
structure ScoringWeights where
  valuation : ℚ := 2 / 5
  quality : ℚ := 3 / 10
  sentiment : ℚ := 1 / 5
  momentum : ℚ := 1 / 10

/-- `base.py`: `ScoringWeights.normalize`. -/
def ScoringWeights.normalize (w : ScoringWeights) : ScoringWeights :=
  let total := w.valuation + w.quality + w.sentiment + w.momentum
  if total = 0 then ⟨1 / 4, 1 / 4, 1 / 4, 1 / 4⟩
  else ⟨w.valuation / total, w.quality / total, w.sentiment / total, w.momentum / total⟩

/-- Sum of the four weight components (the quantity `normalize` divides by). -/
def ScoringWeights.total (w : ScoringWeights) : ℚ :=
  w.valuation + w.quality + w.sentiment + w.momentum

/-- Proportional rescaling of a weight set by a factor `k` (used to state the
spec's "un-normalized-but-proportional weights" property). -/
def ScoringWeights.scale (k : ℚ) (w : ScoringWeights) : ScoringWeights :=
  ⟨k * w.valuation, k * w.quality, k * w.sentiment, k * w.momentum⟩

/-- `base.py`: `ScreeningResult` dataclass (one record per ticker). -/
structure ScreeningResult where
  ticker : String
  name : String := ""
  current_price : ℚ := 0
  market_cap : ℚ := 0
  composite_score : ℚ := 0
  valuation_score : ℚ := 0
  quality_score : ℚ := 0
  sentiment_score : ℚ := 0
  momentum_score : ℚ := 0
  fair_value_median : ℚ := 0
  fair_value_avg : ℚ := 0
  margin_of_safety : ℚ := 0
  undervalued_methods : ℕ := 0
  total_methods : ℕ := 0
  pe_ratio : ℚ := 0
  pb_ratio : ℚ := 0
  roe : ℚ := 0
  fcf_yield : ℚ := 0
  altman_z : ℚ := 0
  roic : ℚ := 0
  operating_margin : ℚ := 0
  dividend_yield : ℚ := 0
  payout_ratio : ℚ := 0
  dividend_growth_rate : ℚ := 0
  news_sentiment : ℚ := 0
  news_sentiment_label : String := "neutral"
  insider_sentiment : String := "neutral"
  insider_net_value : ℚ := 0
  cagr_1y : ℚ := 0
  cagr_3y : ℚ := 0
  price_vs_52w_high : ℚ := 0
  price_vs_52w_low : ℚ := 0
  revenue_growth : ℚ := 0
  earnings_growth : ℚ := 0
  peg_ratio : ℚ := 0
  passed_filters : List String := []
  failed_filters : List String := []
  filter_details : List FilterResult := []
  is_qualified : Bool := false
  errors : List String := []

/-- `scorers.py`: `clamp(value)` with default bounds 0.0/100.0 (the only
bounds the module uses). -/
def clamp (value : ℚ) : ℚ :=
  max 0 (min 100 value)

/-- `scorers.py`: `normalize_to_score(value, min_val, max_val, reverse)`. -/
def normalize_to_score (value min_val max_val : ℚ) (rev : Bool) : ℚ :=
  if max_val = min_val then 50
  else
    let normalized := (value - min_val) / (max_val - min_val) * 100
    let normalized := if rev then 100 - normalized else normalized
    clamp normalized

/-- Mean of a score list with the neutral default:
`sum(scores) / len(scores) if scores else 50.0`. -/
def meanOr50 (scores : List ℚ) : ℚ :=
  if scores = [] then 50 else scores.sum / (scores.length : ℚ)

/-- `scorers.py`: the `scores` list built by `CompositeScorer._calc_valuation_score`. -/
def valuationComponents (r : ScreeningResult) : List ℚ :=
  let scores := [normalize_to_score r.margin_of_safety (-30) 30 false]
  let scores := if r.total_methods > 0 then
      scores ++ [(r.undervalued_methods : ℚ) / (r.total_methods : ℚ) * 100]
    else scores
  let scores := if r.pe_ratio > 0 then
      scores ++ [normalize_to_score r.pe_ratio 5 40 true]
    else scores
  scores

/-- `scorers.py`: `CompositeScorer._calc_valuation_score`. -/
def calc_valuation_score (r : ScreeningResult) : ℚ :=
  meanOr50 (valuationComponents r)

/-- `scorers.py`: the `scores` list built by `CompositeScorer._calc_quality_score`. -/
def qualityComponents (r : ScreeningResult) : List ℚ :=
  let scores : List ℚ := []
  let scores := if r.roe ≠ 0 then scores ++ [normalize_to_score r.roe 0 25 false] else scores
  let scores := if r.fcf_yield ≠ 0 then scores ++ [normalize_to_score r.fcf_yield 0 10 false] else scores
  let scores := if r.altman_z ≠ 0 then scores ++ [normalize_to_score r.altman_z (9 / 5) 5 false] else scores
  let scores := if r.operating_margin ≠ 0 then scores ++ [normalize_to_score r.operating_margin 0 30 false] else scores
  let scores := if r.roic ≠ 0 then scores ++ [normalize_to_score r.roic 0 30 false] else scores
  scores

/-- `scorers.py`: `CompositeScorer._calc_quality_score`. -/
def calc_quality_score (r : ScreeningResult) : ℚ :=
  meanOr50 (qualityComponents r)

/-- `scorers.py`: the `insider_scores` lookup with default 50
(`insider_scores.get(result.insider_sentiment, 50)`). -/
def insiderScoreOf (s : String) : ℚ :=
  if s = "bullish" then 80 else if s = "neutral" then 50 else if s = "bearish" then 20 else 50

/-- `scorers.py`: the `scores` list built by `CompositeScorer._calc_sentiment_score`
(always two entries: news score and insider score). -/
def sentimentComponents (r : ScreeningResult) : List ℚ :=
  [normalize_to_score r.news_sentiment (-1) 1 false, insiderScoreOf r.insider_sentiment]

/-- `scorers.py`: `CompositeScorer._calc_sentiment_score` (no empty-list
guard: the list always has exactly two entries). -/
def calc_sentiment_score (r : ScreeningResult) : ℚ :=
  (sentimentComponents r).sum / ((sentimentComponents r).length : ℚ)

/-- `scorers.py`: the `scores` list built by `CompositeScorer._calc_momentum_score`. -/
def momentumComponents (r : ScreeningResult) : List ℚ :=
  let scores : List ℚ := []
  let scores := if r.cagr_3y ≠ 0 then scores ++ [normalize_to_score r.cagr_3y (-10) 20 false] else scores
  let scores := if r.price_vs_52w_high ≠ 0 then scores ++ [normalize_to_score r.price_vs_52w_high 50 0 false] else scores
  let scores := if r.earnings_growth ≠ 0 then scores ++ [normalize_to_score r.earnings_growth (-10) 30 false] else scores
  scores

/-- `scorers.py`: `CompositeScorer._calc_momentum_score`. -/
def calc_momentum_score (r : ScreeningResult) : ℚ :=
  meanOr50 (momentumComponents r)

/-- `scorers.py`: `CompositeScorer` (its only state is the weight set). -/
structure CompositeScorer where
  weights : ScoringWeights

/-- `scorers.py`: `CompositeScorer.__init__` normalizes the given weights
once at construction. -/
def CompositeScorer.init (w : ScoringWeights) : CompositeScorer :=
  ⟨w.normalize⟩

/-- `scorers.py`: `CompositeScorer.score` — writes the four factor scores and
the clamped weighted composite into the result; modelled as returning the
updated record (the Python method mutates `result` in place and returns
`result.composite_score`). -/
def CompositeScorer.score (s : CompositeScorer) (r : ScreeningResult) : ScreeningResult :=
  let v := calc_valuation_score r
  let q := calc_quality_score r
  let se := calc_sentiment_score r
  let m := calc_momentum_score r
  let composite := clamp
    (v * s.weights.valuation + q * s.weights.quality
      + se * s.weights.sentiment + m * s.weights.momentum)
  { r with
    valuation_score := v
    quality_score := q
    sentiment_score := se
    momentum_score := m
    composite_score := composite }

/-- `scorers.py`: `ValuationScorer` preset (weights 0.60/0.25/0.10/0.05);
`get_scorer("value")` returns this scorer, which the pipeline uses for the
value strategy. -/
def ValuationScorer : CompositeScorer :=
  CompositeScorer.init ⟨3 / 5, 1 / 4, 1 / 10, 1 / 20⟩

/-- `filters.py`: `MarginOfSafetyFilter.apply` (default `min_mos=15.0`). -/
def marginOfSafetyApply (min_mos : ℚ) (r : ScreeningResult) : FilterResult :=
  let value := r.margin_of_safety
  let passed := decide (value ≥ min_mos)
  let reason := if passed then "MOS " ++ fmt1 value ++ "% >= " ++ pyStr min_mos ++ "%"
    else "MOS " ++ fmt1 value ++ "% < " ++ pyStr min_mos ++ "%"
  { filter_name := "margin_of_safety", passed := passed, reason := reason,
    value := some value, threshold := some min_mos, category := FilterCategory.VALUATION }

/-- `filters.py`: `PEFilter.apply` (defaults `max_pe=20.0`, `min_pe=0.0`). -/
def peApply (max_pe min_pe : ℚ) (r : ScreeningResult) : FilterResult :=
  let value := r.pe_ratio
  if value ≤ 0 then
    { filter_name := "pe_ratio", passed := false, reason := "P/E not available or negative",
      value := some value, threshold := some max_pe, category := FilterCategory.VALUATION }
  else
    let passed := decide (min_pe ≤ value ∧ value ≤ max_pe)
    let reason := if passed then
        "P/E " ++ fmt1 value ++ " within [" ++ pyStr min_pe ++ ", " ++ pyStr max_pe ++ "]"
      else "P/E " ++ fmt1 value ++ " outside [" ++ pyStr min_pe ++ ", " ++ pyStr max_pe ++ "]"
    { filter_name := "pe_ratio", passed := passed, reason := reason,
      value := some value, threshold := some max_pe, category := FilterCategory.VALUATION }

/-- `filters.py`: `PBFilter.apply` (default `max_pb=3.0`). -/
def pbApply (max_pb : ℚ) (r : ScreeningResult) : FilterResult :=
  let value := r.pb_ratio
  if value ≤ 0 then
    { filter_name := "pb_ratio", passed := false, reason := "P/B not available or negative",
      value := some value, threshold := some max_pb, category := FilterCategory.VALUATION }
  else
    let passed := decide (value ≤ max_pb)
    let reason := if passed then "P/B " ++ fmt2 value ++ " <= " ++ pyStr max_pb
      else "P/B " ++ fmt2 value ++ " > " ++ pyStr max_pb
    { filter_name := "pb_ratio", passed := passed, reason := reason,
      value := some value, threshold := some max_pb, category := FilterCategory.VALUATION }

/-- `filters.py`: `PEGFilter.apply` (default `max_peg=1.5`). -/
def pegApply (max_peg : ℚ) (r : ScreeningResult) : FilterResult :=
  let value := r.peg_ratio
  if value ≤ 0 then
    { filter_name := "peg_ratio", passed := false, reason := "PEG not available",
      value := some value, threshold := some max_peg, category := FilterCategory.VALUATION }
  else
    let passed := decide (value ≤ max_peg)
    let reason := if passed then "PEG " ++ fmt2 value ++ " <= " ++ pyStr max_peg
      else "PEG " ++ fmt2 value ++ " > " ++ pyStr max_peg
    { filter_name := "peg_ratio", passed := passed, reason := reason,
      value := some value, threshold := some max_peg, category := FilterCategory.VALUATION }

/-- `filters.py`: `UndervaluedMethodsFilter.apply` (default `min_methods=2`). -/
def undervaluedMethodsApply (min_methods : ℕ) (r : ScreeningResult) : FilterResult :=
  let value := r.undervalued_methods
  let passed := decide (value ≥ min_methods)
  let reason := if passed then
      toString value ++ " methods indicate undervalued >= " ++ toString min_methods
    else toString value ++ " methods indicate undervalued < " ++ toString min_methods
  { filter_name := "undervalued_methods", passed := passed, reason := reason,
    value := some (value : ℚ), threshold := some (min_methods : ℚ),
    category := FilterCategory.VALUATION }

/-- `filters.py`: `ROEFilter.apply` (default `min_roe=10.0`). -/
def roeApply (min_roe : ℚ) (r : ScreeningResult) : FilterResult :=
  let value := r.roe
  let passed := decide (value ≥ min_roe)
  let reason := if passed then "ROE " ++ fmt1 value ++ "% >= " ++ pyStr min_roe ++ "%"
    else "ROE " ++ fmt1 value ++ "% < " ++ pyStr min_roe ++ "%"
  { filter_name := "roe", passed := passed, reason := reason,
    value := some value, threshold := some min_roe, category := FilterCategory.QUALITY }

/-- `filters.py`: `FCFYieldFilter.apply` (default `min_yield=3.0`). -/
def fcfYieldApply (min_yield : ℚ) (r : ScreeningResult) : FilterResult :=
  let value := r.fcf_yield
  let passed := decide (value ≥ min_yield)
  let reason := if passed then "FCF Yield " ++ fmt1 value ++ "% >= " ++ pyStr min_yield ++ "%"
    else "FCF Yield " ++ fmt1 value ++ "% < " ++ pyStr min_yield ++ "%"
  { filter_name := "fcf_yield", passed := passed, reason := reason,
    value := some value, threshold := some min_yield, category := FilterCategory.QUALITY }

/-- `filters.py`: `AltmanZFilter.apply` (default `min_z=2.99`). -/
def altmanZApply (min_z : ℚ) (r : ScreeningResult) : FilterResult :=
  let value := r.altman_z
  let passed := decide (value ≥ min_z)
  let reason := if passed then
      "Altman Z " ++ fmt2 value ++ " >= " ++ pyStr min_z ++ " (safe zone)"
    else "Altman Z " ++ fmt2 value ++ " < " ++ pyStr min_z ++ " (risk zone)"
  { filter_name := "altman_z", passed := passed, reason := reason,
    value := some value, threshold := some min_z, category := FilterCategory.QUALITY }

/-- `filters.py`: `ROICFilter.apply` (default `min_roic=10.0`). -/
def roicApply (min_roic : ℚ) (r : ScreeningResult) : FilterResult :=
  let value := r.roic
  let passed := decide (value ≥ min_roic)
  let reason := if passed then "ROIC " ++ fmt1 value ++ "% >= " ++ pyStr min_roic ++ "%"
    else "ROIC " ++ fmt1 value ++ "% < " ++ pyStr min_roic ++ "%"
  { filter_name := "roic", passed := passed, reason := reason,
    value := some value, threshold := some min_roic, category := FilterCategory.QUALITY }

/-- `filters.py`: `OperatingMarginFilter.apply` (default `min_margin=10.0`). -/
def operatingMarginApply (min_margin : ℚ) (r : ScreeningResult) : FilterResult :=
  let value := r.operating_margin
  let passed := decide (value ≥ min_margin)
  let reason := if passed then "Op Margin " ++ fmt1 value ++ "% >= " ++ pyStr min_margin ++ "%"
    else "Op Margin " ++ fmt1 value ++ "% < " ++ pyStr min_margin ++ "%"
  { filter_name := "operating_margin", passed := passed, reason := reason,
    value := some value, threshold := some min_margin, category := FilterCategory.QUALITY }

/-- `filters.py`: `DividendYieldFilter.apply` (default `min_yield=2.0`). -/
def dividendYieldApply (min_yield : ℚ) (r : ScreeningResult) : FilterResult :=
  let value := r.dividend_yield
  let passed := decide (value ≥ min_yield)
  let reason := if passed then "Div Yield " ++ fmt2 value ++ "% >= " ++ pyStr min_yield ++ "%"
    else "Div Yield " ++ fmt2 value ++ "% < " ++ pyStr min_yield ++ "%"
  { filter_name := "dividend_yield", passed := passed, reason := reason,
    value := some value, threshold := some min_yield, category := FilterCategory.DIVIDEND }

/-- `filters.py`: `PayoutRatioFilter.apply` (default `max_ratio=70.0`). -/
def payoutRatioApply (max_ratio : ℚ) (r : ScreeningResult) : FilterResult :=
  let value := r.payout_ratio
  let passed := decide (value ≤ max_ratio)
  let reason := if passed then "Payout " ++ fmt1 value ++ "% <= " ++ pyStr max_ratio ++ "%"
    else "Payout " ++ fmt1 value ++ "% > " ++ pyStr max_ratio ++ "% (unsustainable)"
  { filter_name := "payout_ratio", passed := passed, reason := reason,
    value := some value, threshold := some max_ratio, category := FilterCategory.DIVIDEND }

/-- `filters.py`: `DividendGrowthFilter.apply` (default `min_growth=3.0`). -/
def dividendGrowthApply (min_growth : ℚ) (r : ScreeningResult) : FilterResult :=
  let value := r.dividend_growth_rate
  let passed := decide (value ≥ min_growth)
  let reason := if passed then "Div Growth " ++ fmt1 value ++ "% >= " ++ pyStr min_growth ++ "%"
    else "Div Growth " ++ fmt1 value ++ "% < " ++ pyStr min_growth ++ "%"
  { filter_name := "dividend_growth", passed := passed, reason := reason,
    value := some value, threshold := some min_growth, category := FilterCategory.DIVIDEND }

/-- `filters.py`: `NewsSentimentFilter.apply` (default `min_sentiment=-0.2`). -/
def newsSentimentApply (min_sentiment : ℚ) (r : ScreeningResult) : FilterResult :=
  let value := r.news_sentiment
  let passed := decide (value ≥ min_sentiment)
  let reason := if passed then
      "News Sentiment " ++ fmtSigned2 value ++ " >= " ++ fmtSigned2 min_sentiment
    else "News Sentiment " ++ fmtSigned2 value ++ " < " ++ fmtSigned2 min_sentiment
      ++ " (too negative)"
  { filter_name := "news_sentiment", passed := passed, reason := reason,
    value := some value, threshold := some min_sentiment, category := FilterCategory.SENTIMENT }

/-- `filters.py`: `InsiderSentimentFilter.apply` (defaults `require_bullish=False`,
`allow_neutral=True`). -/
def insiderSentimentApply (require_bullish allow_neutral : Bool) (r : ScreeningResult) :
    FilterResult :=
  let sentiment := r.insider_sentiment
  let pr : Bool × String :=
    if require_bullish then
      let passed := sentiment == "bullish"
      (passed, "Insider sentiment: " ++ sentiment ++ (if !passed then " (bullish required)" else ""))
    else if allow_neutral then
      let passed := sentiment == "bullish" || sentiment == "neutral"
      (passed, "Insider sentiment: " ++ sentiment ++ (if !passed then " (bearish excluded)" else ""))
    else
      (sentiment == "bullish", "Insider sentiment: " ++ sentiment)
  { filter_name := "insider_sentiment", passed := pr.1, reason := pr.2,
    value := none, threshold := none, category := FilterCategory.SENTIMENT }

/-- `filters.py`: `GrowthFilter.apply` (defaults `min_growth=10.0`, `use_earnings=True`). -/
def growthApply (min_growth : ℚ) (use_earnings : Bool) (r : ScreeningResult) : FilterResult :=
  let value := if use_earnings then r.earnings_growth else r.revenue_growth
  let passed := decide (value ≥ min_growth)
  let gt := if use_earnings then "Earnings" else "Revenue"
  let reason := if passed then gt ++ " Growth " ++ fmt1 value ++ "% >= " ++ pyStr min_growth ++ "%"
    else gt ++ " Growth " ++ fmt1 value ++ "% < " ++ pyStr min_growth ++ "%"
  { filter_name := "growth_rate", passed := passed, reason := reason,
    value := some value, threshold := some min_growth, category := FilterCategory.MOMENTUM }

/-- `filters.py`: `RuleOf40Filter.apply` (default `min_score=30.0`). -/
def ruleOf40Apply (min_score : ℚ) (r : ScreeningResult) : FilterResult :=
  let value := r.earnings_growth + r.operating_margin
  let passed := decide (value ≥ min_score)
  let reason := if passed then "Rule of 40: " ++ fmt1 value ++ " >= " ++ pyStr min_score
    else "Rule of 40: " ++ fmt1 value ++ " < " ++ pyStr min_score
  { filter_name := "rule_of_40", passed := passed, reason := reason,
    value := some value, threshold := some min_score, category := FilterCategory.QUALITY }

/-- `filters.py`: `CAGRFilter.apply` (default `min_cagr=5.0`). -/
def cagrApply (min_cagr : ℚ) (r : ScreeningResult) : FilterResult :=
  let value := r.cagr_3y
  let passed := decide (value ≥ min_cagr)
  let reason := if passed then "3Y CAGR " ++ fmt1 value ++ "% >= " ++ pyStr min_cagr ++ "%"
    else "3Y CAGR " ++ fmt1 value ++ "% < " ++ pyStr min_cagr ++ "%"
  { filter_name := "cagr", passed := passed, reason := reason,
    value := some value, threshold := some min_cagr, category := FilterCategory.MOMENTUM }

/-- `filters.py`: `PriceVs52WeekFilter.apply` (default `max_from_high=30.0`). -/
def priceVs52WeekApply (max_from_high : ℚ) (r : ScreeningResult) : FilterResult :=
  let value := r.price_vs_52w_high
  let passed := decide (value ≤ max_from_high)
  let reason := if passed then
      "Price " ++ fmt1 value ++ "% below 52w high <= " ++ pyStr max_from_high ++ "%"
    else "Price " ++ fmt1 value ++ "% below 52w high > " ++ pyStr max_from_high ++ "%"
  { filter_name := "price_vs_52w", passed := passed, reason := reason,
    value := some value, threshold := some max_from_high, category := FilterCategory.MOMENTUM }

/-- `base.py`: a screening filter object (`BaseFilter` subclass instance):
its `name`/`category` class attributes and its `apply` method.  `apply` is
modelled in `Except String` because `ScreeningStrategy.apply_filters` catches
exceptions raised by a filter; every concrete filter in `filters.py` is
total and is wrapped with `Except.ok`. -/
structure ScreenFilter where
  fname : String
  category : FilterCategory
  applyE : ScreeningResult → Except String FilterResult

/-- `MarginOfSafetyFilter(min_mos)` as a filter object. -/
def MarginOfSafetyFilter (min_mos : ℚ) : ScreenFilter :=
  ⟨"margin_of_safety", FilterCategory.VALUATION, fun r => Except.ok (marginOfSafetyApply min_mos r)⟩

/-- `ROEFilter(min_roe)` as a filter object. -/
def ROEFilter (min_roe : ℚ) : ScreenFilter :=
  ⟨"roe", FilterCategory.QUALITY, fun r => Except.ok (roeApply min_roe r)⟩

/-- `AltmanZFilter(min_z)` as a filter object. -/
def AltmanZFilter (min_z : ℚ) : ScreenFilter :=
  ⟨"altman_z", FilterCategory.QUALITY, fun r => Except.ok (altmanZApply min_z r)⟩

/-- `PEFilter(max_pe, min_pe)` as a filter object. -/
def PEFilter (max_pe min_pe : ℚ) : ScreenFilter :=
  ⟨"pe_ratio", FilterCategory.VALUATION, fun r => Except.ok (peApply max_pe min_pe r)⟩

/-- `PBFilter(max_pb)` as a filter object. -/
def PBFilter (max_pb : ℚ) : ScreenFilter :=
  ⟨"pb_ratio", FilterCategory.VALUATION, fun r => Except.ok (pbApply max_pb r)⟩

/-- `PEGFilter(max_peg)` as a filter object. -/
def PEGFilter (max_peg : ℚ) : ScreenFilter :=
  ⟨"peg_ratio", FilterCategory.VALUATION, fun r => Except.ok (pegApply max_peg r)⟩

/-- `PayoutRatioFilter(max_ratio)` as a filter object. -/
def PayoutRatioFilter (max_ratio : ℚ) : ScreenFilter :=
  ⟨"payout_ratio", FilterCategory.DIVIDEND, fun r => Except.ok (payoutRatioApply max_ratio r)⟩

/-- `base.py`: `ScreeningStrategy` dataclass. -/
structure ScreeningStrategy where
  name : String
  description : String
  filters : List ScreenFilter
  weights : ScoringWeights

/-- Loop body of `ScreeningStrategy.apply_filters`: walks the filter list,
threading the mutable `result` (whose `passed_filters`/`failed_filters`
lists are appended to) and the `all_passed` flag, and collecting
`filter_results`.  A filter whose `apply` raises contributes a failed
`FilterResult` with reason `"Error: ..."` built from `f.name`/`f.category`. -/
def applyFiltersGo : List ScreenFilter → ScreeningResult → Bool →
    Bool × List FilterResult × ScreeningResult
  | [], r, all_passed => (all_passed, [], r)
  | f :: fs, r, all_passed =>
    match f.applyE r with
    | Except.ok fr =>
      let r' := if fr.passed then { r with passed_filters := r.passed_filters ++ [fr.filter_name] }
        else { r with failed_filters := r.failed_filters ++ [fr.filter_name] }
      let rest := applyFiltersGo fs r' (all_passed && fr.passed)
      (rest.1, fr :: rest.2.1, rest.2.2)
    | Except.error e =>
      let fr : FilterResult :=
        { filter_name := f.fname
          passed := false
          reason := "Error: " ++ e
          value := none
          threshold := none
          category := f.category }
      let r' := { r with failed_filters := r.failed_filters ++ [f.fname] }
      let rest := applyFiltersGo fs r' false
      (rest.1, fr :: rest.2.1, rest.2.2)

/-- `base.py`: `ScreeningStrategy.apply_filters` — runs every filter, records
each verdict, then sets `result.filter_details` and `result.is_qualified`
exactly once, and returns `(all_passed, filter_results)` together with the
updated result record. -/
def ScreeningStrategy.apply_filters (s : ScreeningStrategy) (r : ScreeningResult) :
    Bool × List FilterResult × ScreeningResult :=
  let out := applyFiltersGo s.filters r true
  (out.1, out.2.1, { out.2.2 with filter_details := out.2.1, is_qualified := out.1 })

/-- `strategies.py`: `create_value_strategy` (defaults `min_mos=20.0`,
`min_roe=10.0`, `min_z=2.99`, `max_pe=15.0`, `max_pb=1.5`; `max_pb` is
accepted but no P/B filter is added — the filter list has four entries).
`PEFilter(max_pe=max_pe)` keeps its default `min_pe=0`. -/
def create_value_strategy (min_mos min_roe min_z max_pe max_pb : ℚ) : ScreeningStrategy :=
  { name := "value"
    description := "深度价值 - 安全边际优先，Graham风格"
    filters := [MarginOfSafetyFilter min_mos, ROEFilter min_roe, AltmanZFilter min_z,
      PEFilter max_pe 0]
    weights := ⟨1 / 2, 3 / 10, 3 / 20, 1 / 20⟩ }

/-- `pipeline.py`: `ScreeningSummary` dataclass (its `timestamp` field is
wall-clock state and is dropped from the model). -/
structure ScreeningSummary where
  strategy_name : String
  total_stocks : ℕ
  qualified_count : ℕ
  failed_count : ℕ
  error_count : ℕ
  duration_seconds : ℚ

/-- `pipeline.py`: the `ScreeningSummary.pass_rate` property. -/
def ScreeningSummary.pass_rate (s : ScreeningSummary) : ℚ :=
  if s.total_stocks = 0 then 0
  else (s.qualified_count : ℚ) / (s.total_stocks : ℚ) * 100

/-- One entry of `ScreeningPipeline.screen`'s `errors` list:
`{"ticker": ..., "error": ...}`. -/
structure ErrorRecord where
  ticker : String
  error : String

/-- `pipeline.py`: `ScreeningOutput` dataclass. -/
structure ScreeningOutput where
  summary : ScreeningSummary
  qualified : List ScreeningResult
  disqualified : List ScreeningResult
  errors : List ErrorRecord

/-- Behaviour of one submitted future at its `future.result(timeout=60)`
call in `ScreeningPipeline.screen`: either it returns the task's
`ScreeningResult`, or it raises (timeout, or any exception escaping the
task) with a message `str(e)`. -/
inductive TaskOutcome
  | ok (r : ScreeningResult)
  | fail (msg : String)

/-- The fan-in loop of `ScreeningPipeline.screen`: iterates the futures in
submission order (= input ticker order, since `dict` preserves insertion
order and each `executor.submit` call creates a distinct future); a future
that raises appends an error record and a synthetic
`ScreeningResult(ticker=..., errors=[str(e)], is_qualified=False)` to
`results`. -/
def collectResults (tickers : List String) (task : String → TaskOutcome) :
    List ScreeningResult × List ErrorRecord :=
  tickers.foldl
    (fun acc t =>
      match task t with
      | TaskOutcome.ok r => (acc.1 ++ [r], acc.2)
      | TaskOutcome.fail m =>
        (acc.1 ++ [{ ticker := t, errors := [m], is_qualified := false }], acc.2 ++ [⟨t, m⟩]))
    ([], [])

/-- Descending-by-`composite_score` comparison used to model
`qualified.sort(key=lambda r: r.composite_score, reverse=True)`; CPython's
sort is stable, which `List.mergeSort` models. -/
def byScoreDesc (a b : ScreeningResult) : Bool :=
  decide (b.composite_score ≤ a.composite_score)

/-- `pipeline.py`: `ScreeningPipeline.screen` after the thread-pool fan-in,
parameterised by the behaviour `task` of each submitted future and by the
measured wall-clock `duration`: partitions `results` into `qualified`
(`is_qualified`) and `disqualified` (not qualified and no recorded errors),
sorts the qualified list by composite score descending (stable), and builds
the summary. -/
def screen (strategy_name : String) (tickers : List String) (task : String → TaskOutcome)
    (duration : ℚ) : ScreeningOutput :=
  let collected := collectResults tickers task
  let results := collected.1
  let errors := collected.2
  let qualified := results.filter fun r => r.is_qualified
  let disqualified := results.filter fun r => !r.is_qualified && r.errors.isEmpty
  let qualifiedSorted := qualified.mergeSort byScoreDesc
  { summary :=
      { strategy_name := strategy_name
        total_stocks := tickers.length
        qualified_count := qualifiedSorted.length
        failed_count := disqualified.length
        error_count := errors.length
        duration_seconds := duration }
    qualified := qualifiedSorted
    disqualified := disqualified
    errors := errors }

/-- Abstract outcome of the data-collection part of
`ScreeningPipeline._analyze_stock` (steps 1-5: fetch, valuation, metric
extraction, momentum/sentiment fetches) for one ticker: either the populated
pre-filter `ScreeningResult`, or an exception with message `str(e)` raised
inside the method's `try` block. -/
inductive AnalysisOutcome
  | ok (populated : ScreeningResult)
  | raiseErr (msg : String)

/-- `pipeline.py`: `ScreeningPipeline._analyze_stock` — on success it applies
the strategy's filters and the scorer to the populated result and returns
it; on an exception it catches it, appends `"Analysis error: ..."` to
`result.errors`, forces `is_qualified = False`, and still returns the
(partially populated) result instead of raising. -/
def analyze_stock (strat : ScreeningStrategy) (scorer : CompositeScorer)
    (outcome : AnalysisOutcome) (ticker : String) : ScreeningResult :=
  match outcome with
  | AnalysisOutcome.ok populated =>
    let r0 := { populated with ticker := ticker }
    let r1 := (strat.apply_filters r0).2.2
    scorer.score r1
  | AnalysisOutcome.raiseErr m =>
    { ticker := ticker, errors := ["Analysis error: " ++ m], is_qualified := false }

/-- The full pipeline run: each future either raises at `future.result`
(`taskFail t = some msg`: timeout or an exception escaping the task) or
returns `_analyze_stock`'s result for the ticker's analysis outcome. -/
def runScreen (strat : ScreeningStrategy) (scorer : CompositeScorer) (tickers : List String)
    (analysis : String → AnalysisOutcome) (taskFail : String → Option String)
    (duration : ℚ) : ScreeningOutput :=
  screen strat.name tickers
    (fun t =>
      match taskFail t with
      | some m => TaskOutcome.fail m
      | none => TaskOutcome.ok (analyze_stock strat scorer (analysis t) t))
    duration


lemma clamp_nonneg (x : ℚ) : 0 ≤ clamp x :=
  le_max_left 0 _

lemma clamp_le_100 (x : ℚ) : clamp x ≤ 100 :=
  max_le (by norm_num) (min_le_left _ _)

lemma normalize_to_score_bounds (v a b : ℚ) (rev : Bool) :
    0 ≤ normalize_to_score v a b rev ∧ normalize_to_score v a b rev ≤ 100 := by
  unfold normalize_to_score
  split
  · norm_num
  · exact ⟨clamp_nonneg _, clamp_le_100 _⟩

lemma forall_mem_single {P : ℚ → Prop} {a : ℚ} (ha : P a) : ∀ x ∈ [a], P x := by
  intro x hx
  rw [List.mem_singleton] at hx
  exact hx ▸ ha

lemma forall_mem_append_single {P : ℚ → Prop} {l : List ℚ} {a : ℚ}
    (hl : ∀ x ∈ l, P x) (ha : P a) : ∀ x ∈ l ++ [a], P x := by
  intro x hx
  rcases List.mem_append.mp hx with h | h
  · exact hl x h
  · rw [List.mem_singleton] at h
    exact h ▸ ha

lemma forall_mem_nil {P : ℚ → Prop} : ∀ x ∈ ([] : List ℚ), P x := by
  intro x hx
  exact absurd hx (List.not_mem_nil x)

lemma meanOr50_bounds {l : List ℚ} (h : ∀ x ∈ l, 0 ≤ x ∧ x ≤ 100) :
    0 ≤ meanOr50 l ∧ meanOr50 l ≤ 100 := by
  unfold meanOr50
  split
  · norm_num
  · rename_i hne
    have hlen : 0 < (l.length : ℚ) := by
      have := List.length_pos.mpr hne
      exact_mod_cast this
    constructor
    · exact div_nonneg (List.sum_nonneg fun x hx => (h x hx).1) hlen.le
    · rw [div_le_iff₀ hlen]
      calc l.sum ≤ l.length • (100 : ℚ) :=
            List.sum_le_card_nsmul l 100 fun x hx => (h x hx).2
        _ = 100 * l.length := by rw [nsmul_eq_mul]; ring

lemma consensus_bounds {u t : ℕ} (h : u ≤ t) (ht : 0 < t) :
    0 ≤ (u : ℚ) / (t : ℚ) * 100 ∧ (u : ℚ) / (t : ℚ) * 100 ≤ 100 := by
  have htq : 0 < (t : ℚ) := by exact_mod_cast ht
  have hle : (u : ℚ) / (t : ℚ) ≤ 1 := (div_le_one htq).mpr (by exact_mod_cast h)
  constructor
  · positivity
  · nlinarith

lemma valuationComponents_bounds {r : ScreeningResult}
    (h : r.undervalued_methods ≤ r.total_methods) :
    ∀ x ∈ valuationComponents r, 0 ≤ x ∧ x ≤ 100 := by
  unfold valuationComponents
  split_ifs with ht hpe hpe
  · exact forall_mem_append_single
      (forall_mem_append_single (forall_mem_single (normalize_to_score_bounds _ _ _ _))
        (consensus_bounds h ht))
      (normalize_to_score_bounds _ _ _ _)
  · exact forall_mem_append_single (forall_mem_single (normalize_to_score_bounds _ _ _ _))
      (consensus_bounds h ht)
  · exact forall_mem_append_single (forall_mem_single (normalize_to_score_bounds _ _ _ _))
      (normalize_to_score_bounds _ _ _ _)
  · exact forall_mem_single (normalize_to_score_bounds _ _ _ _)

lemma qualityComponents_bounds (r : ScreeningResult) :
    ∀ x ∈ qualityComponents r, 0 ≤ x ∧ x ≤ 100 := by
  unfold qualityComponents
  split_ifs <;>
    simp only [List.nil_append] <;>
    repeat' first
      | apply forall_mem_append_single
      | exact forall_mem_nil
      | exact forall_mem_single (normalize_to_score_bounds _ _ _ _)
      | exact normalize_to_score_bounds _ _ _ _

lemma insiderScoreOf_bounds (s : String) : 0 ≤ insiderScoreOf s ∧ insiderScoreOf s ≤ 100 := by
  unfold insiderScoreOf
  split_ifs <;> norm_num

lemma sentimentComponents_bounds (r : ScreeningResult) :
    ∀ x ∈ sentimentComponents r, 0 ≤ x ∧ x ≤ 100 := by
  intro x hx
  unfold sentimentComponents at hx
  simp only [List.mem_cons, List.not_mem_nil, or_false] at hx
  rcases hx with hx | hx
  · exact hx ▸ normalize_to_score_bounds _ _ _ _
  · exact hx ▸ insiderScoreOf_bounds _

lemma momentumComponents_bounds (r : ScreeningResult) :
    ∀ x ∈ momentumComponents r, 0 ≤ x ∧ x ≤ 100 := by
  unfold momentumComponents
  split_ifs <;>
    simp only [List.nil_append] <;>
    repeat' first
      | apply forall_mem_append_single
      | exact forall_mem_nil
      | exact forall_mem_single (normalize_to_score_bounds _ _ _ _)
      | exact normalize_to_score_bounds _ _ _ _

lemma calc_sentiment_eq_meanOr50 (r : ScreeningResult) :
    calc_sentiment_score r = meanOr50 (sentimentComponents r) := by
  unfold calc_sentiment_score meanOr50
  rw [if_neg (by unfold sentimentComponents; simp)]

/-- C4: for every `ScreeningResult` given as input to `CompositeScorer.score`
(valid inputs: `undervalued_methods ≤ total_methods`; in the model these
counts are naturals, so `0 ≤ undervalued_methods` holds by type), every
intermediate component score of the four categories, every category
sub-score written to the result, and the returned composite score lie in
the closed interval [0, 100]. -/
theorem C4_score_bounds (w : ScoringWeights) (r : ScreeningResult)
    (h : r.undervalued_methods ≤ r.total_methods) :
    (∀ x ∈ valuationComponents r, 0 ≤ x ∧ x ≤ 100) ∧
    (∀ x ∈ qualityComponents r, 0 ≤ x ∧ x ≤ 100) ∧
    (∀ x ∈ sentimentComponents r, 0 ≤ x ∧ x ≤ 100) ∧
    (∀ x ∈ momentumComponents r, 0 ≤ x ∧ x ≤ 100) ∧
    (0 ≤ ((CompositeScorer.init w).score r).valuation_score ∧
      ((CompositeScorer.init w).score r).valuation_score ≤ 100) ∧
    (0 ≤ ((CompositeScorer.init w).score r).quality_score ∧
      ((CompositeScorer.init w).score r).quality_score ≤ 100) ∧
    (0 ≤ ((CompositeScorer.init w).score r).sentiment_score ∧
      ((CompositeScorer.init w).score r).sentiment_score ≤ 100) ∧
    (0 ≤ ((CompositeScorer.init w).score r).momentum_score ∧
      ((CompositeScorer.init w).score r).momentum_score ≤ 100) ∧
    (0 ≤ ((CompositeScorer.init w).score r).composite_score ∧
      ((CompositeScorer.init w).score r).composite_score ≤ 100) := by
  refine ⟨valuationComponents_bounds h, qualityComponents_bounds r,
    sentimentComponents_bounds r, momentumComponents_bounds r, ?_, ?_, ?_, ?_, ?_⟩
  · exact meanOr50_bounds (valuationComponents_bounds h)
  · exact meanOr50_bounds (qualityComponents_bounds r)
  · show 0 ≤ calc_sentiment_score r ∧ calc_sentiment_score r ≤ 100
    rw [calc_sentiment_eq_meanOr50]
    exact meanOr50_bounds (sentimentComponents_bounds r)
  · exact meanOr50_bounds (momentumComponents_bounds r)
  · exact ⟨clamp_nonneg _, clamp_le_100 _⟩

/-- Concrete scorer input for the C4 witness. -/
def c4w : ScoringWeights := {}

/-- Concrete result for the C4 witness (one undervalued method out of two). -/
def c4r : ScreeningResult :=
  { ticker := "C4", margin_of_safety := 12, undervalued_methods := 1, total_methods := 2,
    pe_ratio := 18, roe := 9 }

/-- Witness for C4 at a concrete input. -/
theorem C4_score_bounds_witness :
    c4r.undervalued_methods ≤ c4r.total_methods ∧
    (0 ≤ ((CompositeScorer.init c4w).score c4r).composite_score ∧
      ((CompositeScorer.init c4w).score c4r).composite_score ≤ 100) :=
  ⟨by decide, (C4_score_bounds c4w c4r (by decide)).2.2.2.2.2.2.2.2⟩

/-- C10: `ScreeningSummary.pass_rate` is total (the model is a total
function): it returns 0 when `total_stocks = 0`, and otherwise
`qualified_count / total_stocks * 100`; the division is guarded by the
zero test, so the division-by-zero branch is never taken. -/
theorem C10_pass_rate_total (s : ScreeningSummary) :
    (s.total_stocks = 0 → s.pass_rate = 0) ∧
    (s.total_stocks ≠ 0 →
      s.pass_rate = (s.qualified_count : ℚ) / (s.total_stocks : ℚ) * 100) := by
  unfold ScreeningSummary.pass_rate
  constructor
  · intro h
    rw [if_pos h]
  · intro h
    rw [if_neg h]

/-- Concrete summary for the C10 witness. -/
def c10s : ScreeningSummary :=
  { strategy_name := "value", total_stocks := 4, qualified_count := 1, failed_count := 2,
    error_count := 1, duration_seconds := 0 }

/-- Witness for C10 at a concrete input. -/
theorem C10_pass_rate_total_witness :
    c10s.total_stocks ≠ 0 ∧
    c10s.pass_rate = (c10s.qualified_count : ℚ) / (c10s.total_stocks : ℚ) * 100 :=
  ⟨by decide, (C10_pass_rate_total c10s).2 (by decide)⟩

/-- C6: for `ScoringWeights` with all four components positive,
`normalize()` returns weights summing to 1 (within 1e-9; in the exact
rational model the sum is exactly 1), and a `CompositeScorer` built from
`k·w` (`k > 0`) scores every result identically to one built from `w`. -/
theorem C6_weight_normalization (w : ScoringWeights) (k : ℚ) (r : ScreeningResult)
    (h1 : 0 < w.valuation) (h2 : 0 < w.quality) (h3 : 0 < w.sentiment)
    (h4 : 0 < w.momentum) (hk : 0 < k) :
    |w.normalize.total - 1| ≤ 1 / 1000000000 ∧
    (CompositeScorer.init (ScoringWeights.scale k w)).score r =
      (CompositeScorer.init w).score r := by
  have ht : 0 < w.valuation + w.quality + w.sentiment + w.momentum := by positivity
  constructor
  · have hsum : w.normalize.total = 1 := by
      unfold ScoringWeights.normalize ScoringWeights.total
      rw [if_neg ht.ne']
      field_simp
    rw [hsum]
    norm_num
  · have hnorm : (ScoringWeights.scale k w).normalize = w.normalize := by
      unfold ScoringWeights.normalize ScoringWeights.scale
      have hsum : k * w.valuation + k * w.quality + k * w.sentiment + k * w.momentum =
          k * (w.valuation + w.quality + w.sentiment + w.momentum) := by ring
      simp only [hsum]
      have hkt : k * (w.valuation + w.quality + w.sentiment + w.momentum) ≠ 0 :=
        mul_ne_zero hk.ne' ht.ne'
      rw [if_neg hkt, if_neg ht.ne']
      simp only [ScoringWeights.mk.injEq]
      refine ⟨?_, ?_, ?_, ?_⟩ <;> rw [mul_div_mul_left _ _ hk.ne']
    unfold CompositeScorer.init
    rw [hnorm]

/-- Concrete weights for the C6 witness (sum 5, not 1). -/
def c6w : ScoringWeights := ⟨2, 1, 1, 1⟩

/-- Concrete result for the C6 witness. -/
def c6r : ScreeningResult := { ticker := "C6" }

/-- Witness for C6 at a concrete input. -/
theorem C6_weight_normalization_witness :
    (0 < c6w.valuation ∧ 0 < c6w.quality ∧ 0 < c6w.sentiment ∧ 0 < c6w.momentum ∧
      (0 : ℚ) < 3) ∧
    (|c6w.normalize.total - 1| ≤ 1 / 1000000000 ∧
      (CompositeScorer.init (ScoringWeights.scale 3 c6w)).score c6r =
        (CompositeScorer.init c6w).score c6r) :=
  ⟨⟨by decide, by decide, by decide, by decide, by decide⟩,
    C6_weight_normalization c6w 3 c6r (by decide) (by decide) (by decide) (by decide) (by decide)⟩

/-- The metric fields of a `ScreeningResult` that `CompositeScorer.score`
reads (everything else — identity fields, filter lists, previously written
scores — is not an input of the scoring computation). -/
def scoringInputsEq (a b : ScreeningResult) : Prop :=
  a.margin_of_safety = b.margin_of_safety ∧
  a.undervalued_methods = b.undervalued_methods ∧
  a.total_methods = b.total_methods ∧
  a.pe_ratio = b.pe_ratio ∧
  a.roe = b.roe ∧
  a.fcf_yield = b.fcf_yield ∧
  a.altman_z = b.altman_z ∧
  a.operating_margin = b.operating_margin ∧
  a.roic = b.roic ∧
  a.news_sentiment = b.news_sentiment ∧
  a.insider_sentiment = b.insider_sentiment ∧
  a.cagr_3y = b.cagr_3y ∧
  a.price_vs_52w_high = b.price_vs_52w_high ∧
  a.earnings_growth = b.earnings_growth

lemma calc_scores_congr {a b : ScreeningResult} (h : scoringInputsEq a b) :
    calc_valuation_score a = calc_valuation_score b ∧
    calc_quality_score a = calc_quality_score b ∧
    calc_sentiment_score a = calc_sentiment_score b ∧
    calc_momentum_score a = calc_momentum_score b := by
  obtain ⟨e1, e2, e3, e4, e5, e6, e7, e8, e9, e10, e11, e12, e13, e14⟩ := h
  refine ⟨?_, ?_, ?_, ?_⟩
  · unfold calc_valuation_score valuationComponents
    rw [e1, e2, e3, e4]
  · unfold calc_quality_score qualityComponents
    rw [e5, e6, e7, e8, e9]
  · unfold calc_sentiment_score sentimentComponents
    rw [e10, e11]
  · unfold calc_momentum_score momentumComponents
    rw [e12, e13, e14]

lemma score_preserves_inputs (s : CompositeScorer) (r : ScreeningResult) :
    scoringInputsEq (s.score r) r :=
  ⟨rfl, rfl, rfl, rfl, rfl, rfl, rfl, rfl, rfl, rfl, rfl, rfl, rfl, rfl⟩

lemma score_def (s : CompositeScorer) (r : ScreeningResult) :
    s.score r =
      { r with
        valuation_score := calc_valuation_score r
        quality_score := calc_quality_score r
        sentiment_score := calc_sentiment_score r
        momentum_score := calc_momentum_score r
        composite_score := clamp
          (calc_valuation_score r * s.weights.valuation
            + calc_quality_score r * s.weights.quality
            + calc_sentiment_score r * s.weights.sentiment
            + calc_momentum_score r * s.weights.momentum) } :=
  rfl

/-- C8: `CompositeScorer.score` is a pure function of the result's metric
fields and the scorer's weights: scoring the already-scored record again
reproduces it exactly (calling `score` twice on the same result yields
identical sub-scores and composite), and two results agreeing on all metric
fields receive identical sub-scores and composite scores. -/
theorem C8_score_determinism (s : CompositeScorer) (r₁ r₂ : ScreeningResult)
    (h : scoringInputsEq r₁ r₂) :
    s.score (s.score r₁) = s.score r₁ ∧
    (s.score r₁).valuation_score = (s.score r₂).valuation_score ∧
    (s.score r₁).quality_score = (s.score r₂).quality_score ∧
    (s.score r₁).sentiment_score = (s.score r₂).sentiment_score ∧
    (s.score r₁).momentum_score = (s.score r₂).momentum_score ∧
    (s.score r₁).composite_score = (s.score r₂).composite_score := by
  obtain ⟨g1, g2, g3, g4⟩ := calc_scores_congr h
  obtain ⟨f1, f2, f3, f4⟩ := calc_scores_congr (score_preserves_inputs s r₁)
  constructor
  · show CompositeScorer.score s (CompositeScorer.score s r₁) = CompositeScorer.score s r₁
    rw [score_def s (s.score r₁), f1, f2, f3, f4]
    rfl
  · exact ⟨by simp only [CompositeScorer.score, g1],
      by simp only [CompositeScorer.score, g2],
      by simp only [CompositeScorer.score, g3],
      by simp only [CompositeScorer.score, g4],
      by simp only [CompositeScorer.score, g1, g2, g3, g4]⟩

/-- Concrete results for the C8 witness: identical metric fields, different
identity fields and filter lists. -/
def c8ra : ScreeningResult :=
  { ticker := "AAA", name := "Company A", margin_of_safety := 25, roe := 18,
    altman_z := 7 / 2, pe_ratio := 12, passed_filters := ["roe"] }

/-- Second concrete result for the C8 witness. -/
def c8rb : ScreeningResult :=
  { ticker := "BBB", name := "Company B", current_price := 99, margin_of_safety := 25,
    roe := 18, altman_z := 7 / 2, pe_ratio := 12, failed_filters := ["cagr"] }

/-- Witness for C8 at a concrete input. -/
theorem C8_score_determinism_witness :
    scoringInputsEq c8ra c8rb ∧
    ((ValuationScorer.score (ValuationScorer.score c8ra) = ValuationScorer.score c8ra) ∧
      (ValuationScorer.score c8ra).valuation_score =
        (ValuationScorer.score c8rb).valuation_score ∧
      (ValuationScorer.score c8ra).quality_score =
        (ValuationScorer.score c8rb).quality_score ∧
      (ValuationScorer.score c8ra).sentiment_score =
        (ValuationScorer.score c8rb).sentiment_score ∧
      (ValuationScorer.score c8ra).momentum_score =
        (ValuationScorer.score c8rb).momentum_score ∧
      (ValuationScorer.score c8ra).composite_score =
        (ValuationScorer.score c8rb).composite_score) :=
  ⟨⟨rfl, rfl, rfl, rfl, rfl, rfl, rfl, rfl, rfl, rfl, rfl, rfl, rfl, rfl⟩,
    C8_score_determinism ValuationScorer c8ra c8rb
      ⟨rfl, rfl, rfl, rfl, rfl, rfl, rfl, rfl, rfl, rfl, rfl, rfl, rfl, rfl⟩⟩

lemma applyFiltersGo_spec (fs : List ScreenFilter) :
    ∀ (r : ScreeningResult) (ap : Bool),
      (applyFiltersGo fs r ap).1
          = (ap && ((applyFiltersGo fs r ap).2.1.all fun fr => fr.passed)) ∧
      (applyFiltersGo fs r ap).2.1.length = fs.length := by
  induction fs with
  | nil =>
    intro r ap
    simp [applyFiltersGo]
  | cons f fs ih =>
    intro r ap
    unfold applyFiltersGo
    cases hfr : f.applyE r with
    | ok fr =>
      simp only [List.all_cons, List.length_cons]
      obtain ⟨h1, h2⟩ := ih _ (ap && fr.passed)
      exact ⟨by rw [h1, Bool.and_assoc], by rw [h2]⟩
    | error e =>
      simp only [List.all_cons, List.length_cons]
      obtain ⟨h1, h2⟩ := ih _ false
      constructor
      · rw [h1]
        simp
      · rw [h2]

lemma applyFiltersGo_names (fs : List ScreenFilter) :
    ∀ (r : ScreeningResult) (ap : Bool),
      (∀ f ∈ fs, ∀ r' fr, f.applyE r' = Except.ok fr → fr.filter_name = f.fname) →
      List.Forall₂ (fun (fr : FilterResult) (f : ScreenFilter) => fr.filter_name = f.fname)
        (applyFiltersGo fs r ap).2.1 fs := by
  induction fs with
  | nil =>
    intro r ap _
    simp [applyFiltersGo]
  | cons f fs ih =>
    intro r ap hw
    unfold applyFiltersGo
    cases hfr : f.applyE r with
    | ok fr =>
      exact List.Forall₂.cons (hw f (List.mem_cons_self f fs) r fr hfr)
        (ih _ (ap && fr.passed) fun g hg => hw g (List.mem_cons_of_mem f hg))
    | error e =>
      exact List.Forall₂.cons rfl (ih _ false fun g hg => hw g (List.mem_cons_of_mem f hg))

/-- C1: after `ScreeningStrategy.apply_filters` runs, the result's
`is_qualified` flag equals "every recorded `FilterResult` passed" (a filter
whose `apply` raises contributes a failed `FilterResult`, so it counts as
not passed), `filter_details` is exactly the recorded list, and that list
has exactly one entry per filter of the strategy, in the strategy's filter
order (entry i carries filter i's name; the hypothesis states that each
filter's `apply` labels its verdicts with its own name, as every filter in
`filters.py` does via `BaseFilter._create_result`). -/
theorem C1_apply_filters_qualification (s : ScreeningStrategy) (r : ScreeningResult)
    (hw : ∀ f ∈ s.filters, ∀ r' fr, f.applyE r' = Except.ok fr → fr.filter_name = f.fname) :
    ((s.apply_filters r).2.2.is_qualified
        = ((s.apply_filters r).2.1.all fun fr => fr.passed)) ∧
    (s.apply_filters r).2.2.filter_details = (s.apply_filters r).2.1 ∧
    ((s.apply_filters r).2.1).length = s.filters.length ∧
    List.Forall₂ (fun (fr : FilterResult) (f : ScreenFilter) => fr.filter_name = f.fname)
      ((s.apply_filters r).2.1) s.filters := by
  obtain ⟨hall, hlen⟩ := applyFiltersGo_spec s.filters r true
  refine ⟨?_, rfl, hlen, applyFiltersGo_names s.filters r true hw⟩
  show (applyFiltersGo s.filters r true).1
      = ((applyFiltersGo s.filters r true).2.1.all fun fr => fr.passed)
  rw [hall, Bool.true_and]

lemma create_value_strategy_wellNamed (a b c d e : ℚ) :
    ∀ f ∈ (create_value_strategy a b c d e).filters,
      ∀ r' fr, f.applyE r' = Except.ok fr → fr.filter_name = f.fname := by
  intro f hf
  simp only [create_value_strategy, List.mem_cons, List.not_mem_nil, or_false] at hf
  rcases hf with rfl | rfl | rfl | rfl
  · intro r' fr h
    obtain rfl := Except.ok.inj h
    rfl
  · intro r' fr h
    obtain rfl := Except.ok.inj h
    rfl
  · intro r' fr h
    obtain rfl := Except.ok.inj h
    rfl
  · intro r' fr h
    obtain rfl := Except.ok.inj h
    show (peApply d 0 r').filter_name = _
    unfold peApply
    dsimp only
    split <;> rfl

/-- The value strategy of the spec's example scenarios:
`create_value_strategy(min_mos=20, min_roe=10, min_z=2.99, max_pe=15)`. -/
def c9strat : ScreeningStrategy := create_value_strategy 20 10 (299 / 100) 15 (3 / 2)

/-- The spec's mock result: `margin_of_safety=25, roe=18, altman_z=3.5,
pe_ratio=12`. -/
def c9pass : ScreeningResult :=
  { ticker := "MOCK", margin_of_safety := 25, roe := 18, altman_z := 7 / 2, pe_ratio := 12 }

/-- The same mock result with `margin_of_safety=5`. -/
def c9fail : ScreeningResult := { c9pass with margin_of_safety := 5 }

/-- Witness for C1 at a concrete input. -/
theorem C1_apply_filters_qualification_witness :
    (∀ f ∈ c9strat.filters, ∀ r' fr, f.applyE r' = Except.ok fr → fr.filter_name = f.fname) ∧
    (((c9strat.apply_filters c9pass).2.2.is_qualified
        = ((c9strat.apply_filters c9pass).2.1.all fun fr => fr.passed)) ∧
      (c9strat.apply_filters c9pass).2.2.filter_details = (c9strat.apply_filters c9pass).2.1 ∧
      ((c9strat.apply_filters c9pass).2.1).length = c9strat.filters.length ∧
      List.Forall₂ (fun (fr : FilterResult) (f : ScreenFilter) => fr.filter_name = f.fname)
        ((c9strat.apply_filters c9pass).2.1) c9strat.filters) :=
  ⟨create_value_strategy_wellNamed 20 10 (299 / 100) 15 (3 / 2),
    C1_apply_filters_qualification c9strat c9pass
      (create_value_strategy_wellNamed 20 10 (299 / 100) 15 (3 / 2))⟩

/-- C9: for the strategy `create_value_strategy(min_mos=20, min_roe=10,
min_z=2.99, max_pe=15)`, the mock result with `margin_of_safety=25, roe=18,
altman_z=3.5, pe_ratio=12` qualifies with all four filter names recorded in
`passed_filters`, and the same result with `margin_of_safety=5` is
disqualified with `"margin_of_safety"` in `failed_filters` and that
filter's reason string containing `"< 20"`. -/
theorem C9_value_strategy_scenarios :
    ((c9strat.apply_filters c9pass).2.2.is_qualified = true ∧
      (c9strat.apply_filters c9pass).2.2.passed_filters
        = ["margin_of_safety", "roe", "altman_z", "pe_ratio"]) ∧
    ((c9strat.apply_filters c9fail).2.2.is_qualified = false ∧
      "margin_of_safety" ∈ (c9strat.apply_filters c9fail).2.2.failed_filters ∧
      ((c9strat.apply_filters c9fail).2.2.filter_details.any fun fr =>
          fr.filter_name == "margin_of_safety" && strContainsSub fr.reason "< 20") = true) :=
  ⟨⟨by with_unfolding_all rfl, by with_unfolding_all rfl⟩,
    by with_unfolding_all rfl, of_decide_eq_true (by with_unfolding_all rfl),
    by with_unfolding_all rfl⟩

/-- A result whose metrics are all absent (the source's "0 means missing"
convention), used to refute the claim that every filter fails on a
non-positive/unavailable metric. -/
def c5res : ScreeningResult := { ticker := "C5" }

/-- C5 counterexample: `PayoutRatioFilter` (default `max_ratio=70`) applied
to a result whose `payout_ratio` is 0 (non-positive/unavailable) returns
`passed=True`, and its reason does not say "not available" — so it is not
the case that every filter fails with an explicit "not available" reason on
a non-positive/missing metric. -/
theorem C5_counterexample :
    c5res.payout_ratio ≤ 0 ∧ (payoutRatioApply 70 c5res).passed = true ∧
    strContainsSub (payoutRatioApply 70 c5res).reason "not available" = false :=
  ⟨of_decide_eq_true (by with_unfolding_all rfl), by with_unfolding_all rfl,
    by with_unfolding_all rfl⟩

/-- C5 (amended): exactly the ratio filters guard against missing metrics —
`PEFilter`, `PBFilter` and `PEGFilter` return `passed=False` with an
explicit "not available" reason whenever their metric is ≤ 0; the remaining
filters compare the raw value against their threshold directly (as
`C5_counterexample` shows for `PayoutRatioFilter`). -/
theorem C5_not_available_guard (r : ScreeningResult) (max_pe min_pe max_pb max_peg : ℚ) :
    (r.pe_ratio ≤ 0 →
      (peApply max_pe min_pe r).passed = false ∧
      strContainsSub (peApply max_pe min_pe r).reason "not available" = true) ∧
    (r.pb_ratio ≤ 0 →
      (pbApply max_pb r).passed = false ∧
      strContainsSub (pbApply max_pb r).reason "not available" = true) ∧
    (r.peg_ratio ≤ 0 →
      (pegApply max_peg r).passed = false ∧
      strContainsSub (pegApply max_peg r).reason "not available" = true) := by
  refine ⟨fun h => ?_, fun h => ?_, fun h => ?_⟩
  · unfold peApply
    dsimp only
    rw [if_pos h]
    refine ⟨rfl, ?_⟩
    show strContainsSub "P/E not available or negative" "not available" = true
    decide
  · unfold pbApply
    dsimp only
    rw [if_pos h]
    refine ⟨rfl, ?_⟩
    show strContainsSub "P/B not available or negative" "not available" = true
    decide
  · unfold pegApply
    dsimp only
    rw [if_pos h]
    refine ⟨rfl, ?_⟩
    show strContainsSub "PEG not available" "not available" = true
    decide

/-- A result with non-positive P/E, P/B and PEG for the C5 witness. -/
def c5w : ScreeningResult := { ticker := "C5W", pe_ratio := -1, pb_ratio := 0, peg_ratio := 0 }

/-- Witness for the amended C5 at a concrete input. -/
theorem C5_not_available_guard_witness :
    (c5w.pe_ratio ≤ 0 ∧ c5w.pb_ratio ≤ 0 ∧ c5w.peg_ratio ≤ 0) ∧
    ((peApply 20 0 c5w).passed = false ∧
      strContainsSub (peApply 20 0 c5w).reason "not available" = true) ∧
    ((pbApply 3 c5w).passed = false ∧
      strContainsSub (pbApply 3 c5w).reason "not available" = true) ∧
    ((pegApply (3 / 2) c5w).passed = false ∧
      strContainsSub (pegApply (3 / 2) c5w).reason "not available" = true) :=
  ⟨⟨of_decide_eq_true (by with_unfolding_all rfl),
      of_decide_eq_true (by with_unfolding_all rfl),
      of_decide_eq_true (by with_unfolding_all rfl)⟩,
    (C5_not_available_guard c5w 20 0 3 (3 / 2)).1
      (of_decide_eq_true (by with_unfolding_all rfl)),
    (C5_not_available_guard c5w 20 0 3 (3 / 2)).2.1
      (of_decide_eq_true (by with_unfolding_all rfl)),
    (C5_not_available_guard c5w 20 0 3 (3 / 2)).2.2
      (of_decide_eq_true (by with_unfolding_all rfl))⟩

unseal List.merge List.mergeSort

/-- Synthetic all-passing result with composite score 80. -/
def c7resA : ScreeningResult := { ticker := "A", composite_score := 80, is_qualified := true }

/-- Synthetic all-passing result with composite score 50. -/
def c7resB : ScreeningResult := { ticker := "B", composite_score := 50, is_qualified := true }

/-- Synthetic all-passing result with composite score 90. -/
def c7resC : ScreeningResult := { ticker := "C", composite_score := 90, is_qualified := true }

/-- Task behaviour returning the three synthetic results of the spec's
ranking scenario. -/
def c7task : String → TaskOutcome := fun t =>
  if t == "A" then TaskOutcome.ok c7resA
  else if t == "B" then TaskOutcome.ok c7resB
  else TaskOutcome.ok c7resC

/-- C7: `screen` partitions the collected results into `qualified`
(`is_qualified = true`) and `disqualified` (`is_qualified = false` and no
recorded errors); the returned qualified list is sorted by composite score
in descending order, is a permutation of the qualified results, and ties
keep the input order (the stable-sort property, stated as: filtering the
output at any fixed score gives exactly the input-order sublist at that
score); and three synthetic all-passing results with composite scores
80, 50, 90 come back ordered [90, 80, 50]. -/
theorem C7_ranking :
    (∀ (sn : String) (tickers : List String) (task : String → TaskOutcome) (d : ℚ),
      List.Pairwise (fun a b : ScreeningResult => b.composite_score ≤ a.composite_score)
        (screen sn tickers task d).qualified ∧
      ((screen sn tickers task d).qualified).Perm
        ((collectResults tickers task).1.filter fun r => r.is_qualified) ∧
      (∀ c : ℚ,
        ((screen sn tickers task d).qualified.filter
            fun r => decide (r.composite_score = c))
          = (((collectResults tickers task).1.filter fun r => r.is_qualified).filter
              fun r => decide (r.composite_score = c))) ∧
      (screen sn tickers task d).disqualified
        = ((collectResults tickers task).1.filter
            fun r => !r.is_qualified && r.errors.isEmpty)) ∧
    ((screen "value" ["A", "B", "C"] c7task 0).qualified.map fun r => r.composite_score)
      = [90, 80, 50] := by
  have htrans : ∀ a b c : ScreeningResult,
      byScoreDesc a b = true → byScoreDesc b c = true → byScoreDesc a c = true := by
    intro a b c hab hbc
    simp only [byScoreDesc, decide_eq_true_eq] at hab hbc ⊢
    exact le_trans hbc hab
  have htotal : ∀ a b : ScreeningResult, (byScoreDesc a b || byScoreDesc b a) = true := by
    intro a b
    simp only [byScoreDesc, Bool.or_eq_true, decide_eq_true_eq]
    exact le_total _ _
  constructor
  · intro sn tickers task d
    have hq : (screen sn tickers task d).qualified
        = ((collectResults tickers task).1.filter fun r => r.is_qualified).mergeSort
            byScoreDesc := rfl
    set q := (collectResults tickers task).1.filter fun r => r.is_qualified with hqdef
    refine ⟨?_, ?_, ?_, rfl⟩
    · rw [hq]
      exact (List.sorted_mergeSort htrans htotal q).imp
        fun hab => of_decide_eq_true hab
    · rw [hq]
      exact List.mergeSort_perm q byScoreDesc
    · intro c
      rw [hq]
      set p := fun r : ScreeningResult => decide (r.composite_score = c) with hpdef
      have hsub : (q.filter p).Sublist q := List.filter_sublist q
      have hmemp : ∀ a ∈ q.filter p, p a = true := fun a ha => (List.mem_filter.mp ha).2
      have hpair : List.Pairwise (fun a b => byScoreDesc a b = true) (q.filter p) := by
        apply List.pairwise_of_forall_mem_list
        intro a ha b hb
        have hac : a.composite_score = c := of_decide_eq_true (hmemp a ha)
        have hbc : b.composite_score = c := of_decide_eq_true (hmemp b hb)
        exact decide_eq_true (by rw [hac, hbc])
      have h1 : (q.filter p).Sublist (q.mergeSort byScoreDesc) :=
        List.sublist_mergeSort htrans htotal hpair hsub
      have h2 := List.Sublist.filter p h1
      rw [List.filter_eq_self.mpr hmemp] at h2
      have hperm : ((q.mergeSort byScoreDesc).filter p).Perm (q.filter p) :=
        (List.mergeSort_perm q byScoreDesc).filter p
      exact (h2.eq_of_length hperm.length_eq.symm).symm
  · with_unfolding_all rfl

/-- Analysis outcomes of the C3 scenario: the third of five tickers raises
inside `_analyze_stock`, the rest succeed with the all-passing metrics. -/
def c3analysis : String → AnalysisOutcome := fun t =>
  if t == "T3" then AnalysisOutcome.raiseErr "boom" else AnalysisOutcome.ok c9pass

/-- C2 (evaluation at the failing input): screening the single ticker
`"BAD"` whose fetch raises inside `_analyze_stock` yields a summary with
`total_stocks = 1` but `qualified_count = failed_count = error_count = 0`:
the exception is caught inside `_analyze_stock`, so the future completes
normally and no error record is created, while the returned result's
non-empty `errors` list excludes it from the disqualified bucket — the
counts do not add up to the number of input tickers. -/
theorem C2_screen_counts_eval :
    (runScreen c9strat ValuationScorer ["BAD"]
        (fun _ => AnalysisOutcome.raiseErr "fetch failed") (fun _ => none) 0).summary.total_stocks
        = 1 ∧
    (runScreen c9strat ValuationScorer ["BAD"]
        (fun _ => AnalysisOutcome.raiseErr "fetch failed") (fun _ => none) 0).summary.qualified_count
        = 0 ∧
    (runScreen c9strat ValuationScorer ["BAD"]
        (fun _ => AnalysisOutcome.raiseErr "fetch failed") (fun _ => none) 0).summary.failed_count
        = 0 ∧
    (runScreen c9strat ValuationScorer ["BAD"]
        (fun _ => AnalysisOutcome.raiseErr "fetch failed") (fun _ => none) 0).summary.error_count
        = 0 ∧
    ((runScreen c9strat ValuationScorer ["BAD"]
        (fun _ => AnalysisOutcome.raiseErr "fetch failed") (fun _ => none) 0).errors.map
      fun e => e.ticker) = [] :=
  ⟨by with_unfolding_all rfl, by with_unfolding_all rfl, by with_unfolding_all rfl,
    by with_unfolding_all rfl, by with_unfolding_all rfl⟩

/-- C3 (evaluation at the failing input): in a batch of five tickers where
exactly ticker `"T3"`'s analysis raises (inside `_analyze_stock`), the
other four tickers complete and appear in the output buckets, but
`error_count = 0` (not 1, as claimed): the raising ticker's result carries
a non-empty `errors` list and is excluded from the qualified bucket, the
disqualified bucket, and the error-record list alike. -/
theorem C3_batch_isolation_eval :
    (runScreen c9strat ValuationScorer ["T1", "T2", "T3", "T4", "T5"] c3analysis
        (fun _ => none) 0).summary.total_stocks = 5 ∧
    (runScreen c9strat ValuationScorer ["T1", "T2", "T3", "T4", "T5"] c3analysis
        (fun _ => none) 0).summary.error_count = 0 ∧
    ((runScreen c9strat ValuationScorer ["T1", "T2", "T3", "T4", "T5"] c3analysis
        (fun _ => none) 0).errors.map fun e => e.ticker) = [] ∧
    ((runScreen c9strat ValuationScorer ["T1", "T2", "T3", "T4", "T5"] c3analysis
        (fun _ => none) 0).qualified.map fun r => r.ticker) = ["T1", "T2", "T4", "T5"] ∧
    ((runScreen c9strat ValuationScorer ["T1", "T2", "T3", "T4", "T5"] c3analysis
        (fun _ => none) 0).disqualified.map fun r => r.ticker) = [] ∧
    (runScreen c9strat ValuationScorer ["T1", "T2", "T3", "T4", "T5"] c3analysis
          (fun _ => none) 0).summary.qualified_count
        + (runScreen c9strat ValuationScorer ["T1", "T2", "T3", "T4", "T5"] c3analysis
            (fun _ => none) 0).summary.failed_count
        + (runScreen c9strat ValuationScorer ["T1", "T2", "T3", "T4", "T5"] c3analysis
            (fun _ => none) 0).summary.error_count = 4 :=
  ⟨by with_unfolding_all rfl, by with_unfolding_all rfl, by with_unfolding_all rfl,
    by with_unfolding_all rfl, by with_unfolding_all rfl, by with_unfolding_all rfl⟩
